import Mathlib

/-!
Verification of the fingerprinting rule-matching and variant-classification
engine of the sentry grouping subsystem. The repository ships only the YAML
test fixtures of this engine (tests/sentry/grouping/test_fingerprinting.py
snapshots); the engine itself is modelled from the specification and checked
against the fixtures' recorded inputs and outputs.
-/

/-- Modelled from the spec: the read-only event attribute bag presented to the
engine. The spec names at minimum a `value` (error message), `type` (exception
class name), `module` (originating code module) and further fields
referenceable by templates such as `error.value`; absent fields are `none`. -/
structure Event where
  value : Option String
  type : Option String
  module : Option String
  errorValue : Option String
deriving DecidableEq

/-- Modelled from the spec: a fingerprint template token; a tagged union over
the three token kinds of section 4.3 (literal string, field placeholder,
the special default marker), as the design notes prescribe. -/
inductive FPToken where
  | lit (s : String)
  | fieldRef (field : String)
  | defaultTok
deriving DecidableEq

/-- Modelled from the spec: the authored (client-side) text of a template
token, used for `client_values` of salted variants. -/
def tokenText : FPToken → String
  | FPToken.lit s => s
  | FPToken.fieldRef f => "\x7b\x7b " ++ f ++ " \x7d\x7d"
  | FPToken.defaultTok => "\x7b\x7b default \x7d\x7d"

/-- Modelled from the spec: a configured rule: ordered matcher list (field
name and glob-style pattern), an attributes map (empty in the samples), a
fingerprint template and the literal rule text kept for audit display. -/
structure Rule where
  matchers : List (String × String)
  fingerprint : List FPToken
  attributes : List (String × String)
  text : String
deriving DecidableEq

/-- Modelled from the spec: the versioned fingerprinting configuration
(`version: 1` plus the ordered rule list). -/
structure FingerprintConfig where
  version : Nat
  rules : List Rule
deriving DecidableEq

/-- Modelled from the spec: glob matching over character lists; `*` matches
any (possibly empty) sequence, every other character matches literally. An
empty pattern matches only the empty string. -/
def globMatchL : List Char → List Char → Bool
  | [], s => s.isEmpty
  | '*' :: ps, s => s.tails.any fun suf => globMatchL ps suf
  | p :: ps, s =>
    match s with
    | [] => false
    | c :: cs => (p == c) && globMatchL ps cs

/-- Modelled from the spec: glob matching on strings. -/
def globMatch (pat s : String) : Bool :=
  globMatchL pat.toList s.toList

/-- Modelled from the spec: lower-casing used for the case-insensitive
matching convention of the `value` matcher key. -/
def lcString (s : String) : String :=
  String.mk (s.toList.map Char.toLower)

/-- Modelled from the spec: the event field selected by a matcher key; the
supported keys are `value`, `type` and `module`, any other key selects no
field. -/
def matcherField (e : Event) (key : String) : Option String :=
  if key = "value" then e.value
  else if key = "type" then e.type
  else if key = "module" then e.module
  else none

/-- Modelled from the spec: `matches(event, matcherKey, pattern)`, named
`eventMatches` here; glob-style
matching of the selected event field, case-insensitive for the `value` key by
convention (scenario 1), case-sensitive otherwise; fails closed (`false`) when
the selected field is absent. -/
def eventMatches (e : Event) (key pattern : String) : Bool :=
  match matcherField e key with
  | none => false
  | some v =>
    if key = "value" then globMatch (lcString pattern) (lcString v)
    else globMatch pattern v

/-- Modelled from the spec: a rule matches an event when all of its matchers
return true (logical AND). -/
def ruleMatches (e : Event) (r : Rule) : Bool :=
  r.matchers.all fun m => eventMatches e m.1 m.2

/-- Modelled from the spec: `selectRule(event, rules)`: iterate the configured
rules in file order and return the first fully-matching rule, `none` when no
rule matches. -/
def selectRule (e : Event) (rules : List Rule) : Option Rule :=
  rules.find? (ruleMatches e)

/-- Modelled from the spec: the render-time error raised when a placeholder
references a field absent on the event. -/
inductive RenderError where
  | unresolvedPlaceholder
deriving DecidableEq

/-- Modelled from the spec: the event field dereferenced by a template
placeholder; templates may reference `error.value` besides the matcher
keys. -/
def templateField (e : Event) (f : String) : Option String :=
  if f = "error.value" then e.errorValue
  else matcherField e f

/-- Modelled from the spec: rendering of one template token: a literal is
copied verbatim, a field placeholder substitutes the dereferenced event field
(failing with `unresolvedPlaceholder` when absent), and the default marker
substitutes the system-default fingerprint component `d`, which is defined by
the grouping subsystem and hence a parameter here. -/
def renderToken (d : String) (e : Event) : FPToken → Except RenderError String
  | FPToken.lit s => Except.ok s
  | FPToken.fieldRef f =>
    match templateField e f with
    | some v => Except.ok v
    | none => Except.error RenderError.unresolvedPlaceholder
  | FPToken.defaultTok => Except.ok d

/-- Modelled from the spec: `render(template, event)`: expand every token in
order, propagating the first `unresolvedPlaceholder` failure. -/
def render (d : String) (e : Event) : List FPToken → Except RenderError (List String)
  | [] => Except.ok []
  | t :: ts =>
    match renderToken d e t with
    | Except.error er => Except.error er
    | Except.ok s =>
      match render d e ts with
      | Except.error er => Except.error er
      | Except.ok rest => Except.ok (s :: rest)

/-- Modelled from the spec: a grouping variant; a tagged union over the three
variant kinds (`component`, `salted-component`, `custom-fingerprint`), each
carrying only the fields relevant to its kind, as the design notes
prescribe. -/
inductive Variant where
  | component (contributes : Bool) (hint : Option String)
  | saltedComponent (contributes : Bool) (hint : Option String)
      (clientValues : List String) (values : List String)
  | customFingerprint (matchedRule : String) (values : List String)
deriving DecidableEq

/-- Modelled from the spec: the contribution flag of a variant; a
`custom-fingerprint` variant carries `contributes: true`-equivalent
semantics. -/
def variantContributes : Variant → Bool
  | Variant.component c _ => c
  | Variant.saltedComponent c _ _ _ => c
  | Variant.customFingerprint _ _ => true

/-- Modelled from the spec: the explanatory hint of a variant. -/
def variantHint : Variant → Option String
  | Variant.component _ h => h
  | Variant.saltedComponent _ h _ _ => h
  | Variant.customFingerprint _ _ => none

/-- Whether a variant is of the `custom-fingerprint` kind. -/
def isCustomVariant : Variant → Bool
  | Variant.customFingerprint _ _ => true
  | _ => false

/-- Whether a variant is of the `salted-component` kind. -/
def isSaltedVariant : Variant → Bool
  | Variant.saltedComponent _ _ _ _ => true
  | _ => false

/-- Modelled from the spec: a template is salted when it includes the
`default` marker (a custom prefix plus the default grouping value). -/
def isSaltedTemplate (tpl : List FPToken) : Bool :=
  tpl.any fun t =>
    match t with
    | FPToken.defaultTok => true
    | _ => false

/-- Hint put on the suppressed component variants when a custom rule fired. -/
def hintCustomPrecedence : String := "custom fingerprint takes precedence"

/-- Hint put on the suppressed app variant of a salted fingerprint. -/
def hintSystemPrecedence : String := "exception of system takes precedence"

/-- Modelled from the spec:
`classify(matchResult, renderedFingerprint, event)`. With a matched salted
rule it emits `app` and `system` as `salted-component` carrying the authored
template as both `client_values` and `values`, `system` contributing and `app`
suppressed with a hint; with a matched non-salted rule it emits the
`custom-fingerprint` variant carrying the rendered values and the matched rule
text, plus suppressed `app`/`system` component variants; with no matched rule
no custom-fingerprint or salted-component variant is emitted (default
grouping is out of scope). -/
def classify (matchResult : Option Rule) (renderedFingerprint : List String)
    (_e : Event) : List (String × Variant) :=
  match matchResult with
  | none => []
  | some r =>
    if isSaltedTemplate r.fingerprint then
      [("app", Variant.saltedComponent false (some hintSystemPrecedence)
          (r.fingerprint.map tokenText) (r.fingerprint.map tokenText)),
       ("system", Variant.saltedComponent true none
          (r.fingerprint.map tokenText) (r.fingerprint.map tokenText))]
    else
      [("app", Variant.component false (some hintCustomPrecedence)),
       ("custom-fingerprint", Variant.customFingerprint r.text renderedFingerprint),
       ("system", Variant.component false (some hintCustomPrecedence))]

/-- Modelled from the spec: the two outputs the core exposes for one event
evaluation: the matched rule (if any), the resolved fingerprint components,
and the variants mapping. -/
structure EvalResult where
  matchedRule : Option Rule
  fingerprint : Option (List String)
  variants : List (String × Variant)
deriving DecidableEq

/-- Modelled from the spec: the full pipeline over one event: select the
first fully-matching rule, render its template, classify the variants. The
system-default fingerprint component `d` is a parameter of the evaluation. -/
def evaluate (d : String) (cfg : FingerprintConfig) (e : Event) :
    Except RenderError EvalResult :=
  match selectRule e cfg.rules with
  | none =>
    Except.ok { matchedRule := none, fingerprint := none,
                variants := classify none [] e }
  | some r =>
    match render d e r.fingerprint with
    | Except.error er => Except.error er
    | Except.ok fp =>
      Except.ok { matchedRule := some r, fingerprint := some fp,
                  variants := classify (some r) fp e }

/-- The single rule of the first fixture: matcher `value:"*went wrong*"`,
template `["something-went-wrong", "\x7b\x7b error.value \x7d\x7d"]`. -/
def fixtureRule1 : Rule :=
  { matchers := [("value", "*went wrong*")],
    fingerprint := [FPToken.lit "something-went-wrong",
                    FPToken.fieldRef "error.value"],
    attributes := [],
    text := "value:\"*went wrong*\" -> \"something-went-wrong\x7b\x7b error.value \x7d\x7d\"" }

/-- The configuration of the first fixture. -/
def fixtureConfig1 : FingerprintConfig :=
  { version := 1, rules := [fixtureRule1] }

/-- The event of the first fixture, titled `EndOfWorld: something went WRONG`:
exception type `EndOfWorld`, exception value `something went WRONG`. -/
def fixtureEvent1 : Event :=
  { value := some "EndOfWorld: something went WRONG",
    type := some "EndOfWorld",
    module := none,
    errorValue := some "something went WRONG" }

/-- The rule of the second scenario: matchers `type:"DatabaseUnavailable"`
and `module:"invalid.databasestuff.*"`, salted template
`["my-route", "\x7b\x7b default \x7d\x7d"]`. -/
def fixtureRule2 : Rule :=
  { matchers := [("type", "DatabaseUnavailable"),
                 ("module", "invalid.databasestuff.*")],
    fingerprint := [FPToken.lit "my-route", FPToken.defaultTok],
    attributes := [],
    text := "type:\"DatabaseUnavailable\" module:\"invalid.databasestuff.*\" -> \"my-route\x7b\x7b default \x7d\x7d\"" }

/-- The configuration of the second scenario. -/
def fixtureConfig2 : FingerprintConfig :=
  { version := 1, rules := [fixtureRule2] }

/-- The event of the second fixture, titled `DatabaseUnavailable: For some
reason the database went away`, raised from module
`invalid.databasestuff.connect`. -/
def fixtureEvent2 : Event :=
  { value := some "For some reason the database went away",
    type := some "DatabaseUnavailable",
    module := some "invalid.databasestuff.connect",
    errorValue := some "For some reason the database went away" }

/-- An event with every field absent, exercising the fail-closed and
no-match paths. -/
def emptyEvent : Event :=
  { value := none, type := none, module := none, errorValue := none }

/-- C1: for the event whose value is `EndOfWorld: something went WRONG`
evaluated against the single rule `value:"*went wrong*"` with template
`["something-went-wrong", "\x7b\x7b error.value \x7d\x7d"]`, the pipeline's
fingerprint output is `["something-went-wrong", "something went WRONG"]`, the
variants map contains a custom-fingerprint variant whose values equal that
fingerprint, and both the app and system variants have `contributes = false`
with hint `custom fingerprint takes precedence`. -/
theorem scenario1_pipeline (d : String) :
    evaluate d fixtureConfig1 fixtureEvent1 =
      Except.ok
        { matchedRule := some fixtureRule1,
          fingerprint := some ["something-went-wrong", "something went WRONG"],
          variants :=
            [("app", Variant.component false (some hintCustomPrecedence)),
             ("custom-fingerprint",
              Variant.customFingerprint fixtureRule1.text
                ["something-went-wrong", "something went WRONG"]),
             ("system", Variant.component false (some hintCustomPrecedence))] } := by
  rfl

/-- C2: for the event with type `DatabaseUnavailable` and module
`invalid.databasestuff.connect` evaluated against the rule with matchers
`type:"DatabaseUnavailable"` and `module:"invalid.databasestuff.*"` and the
salted template `["my-route", "\x7b\x7b default \x7d\x7d"]`, the fingerprint
output is `["my-route", d]` with the default marker replaced by the
system-default component `d`, both app and system variants are
salted-component with identical client_values and values (the authored,
unexpanded template), `system` contributes and `app` does not, with hint
`exception of system takes precedence`. -/
theorem scenario2_pipeline (d : String) :
    evaluate d fixtureConfig2 fixtureEvent2 =
      Except.ok
        { matchedRule := some fixtureRule2,
          fingerprint := some ["my-route", d],
          variants :=
            [("app",
              Variant.saltedComponent false (some hintSystemPrecedence)
                ["my-route", "\x7b\x7b default \x7d\x7d"]
                ["my-route", "\x7b\x7b default \x7d\x7d"]),
             ("system",
              Variant.saltedComponent true none
                ["my-route", "\x7b\x7b default \x7d\x7d"]
                ["my-route", "\x7b\x7b default \x7d\x7d"])] } := by
  rfl

/-- C3: `selectRule` returns a rule exactly when all of that rule's matchers
evaluate to true on the event (conjunction, via `ruleMatches`) and every rule
declared earlier fails to fully match: precedence is strictly by declaration
order, so of two fully-matching rules the earlier one is returned. -/
theorem selectRule_first_match (e : Event) (rules : List Rule) (r : Rule) :
    selectRule e rules = some r ↔
      ∃ pre post, rules = pre ++ r :: post ∧ ruleMatches e r = true ∧
        ∀ r' ∈ pre, ruleMatches e r' = false := by
  induction rules with
  | nil =>
    constructor
    · intro h
      exact absurd h (by simp [selectRule])
    · rintro ⟨pre, post, heq, -, -⟩
      exact absurd heq (by simp)
  | cons a as ih =>
    cases h : ruleMatches e a with
    | true =>
      have key : selectRule e (a :: as) = some a := by
        simp [selectRule, List.find?_cons_of_pos _ h]
      rw [key]
      constructor
      · intro hsome
        obtain rfl : a = r := Option.some.inj hsome
        exact ⟨[], as, rfl, h, by intro r' hr'; exact absurd hr' (List.not_mem_nil r')⟩
      · rintro ⟨pre, post, heq, hr, hpre⟩
        cases pre with
        | nil =>
          simp only [List.nil_append] at heq
          obtain ⟨rfl, rfl⟩ := List.cons.inj heq
          rfl
        | cons b bs =>
          simp only [List.cons_append] at heq
          obtain ⟨rfl, -⟩ := List.cons.inj heq
          have hb : ruleMatches e a = false := hpre a (List.mem_cons_self a bs)
          rw [h] at hb
          exact absurd hb (by simp)
    | false =>
      have hneg : ¬ ruleMatches e a = true := by simp [h]
      have key : selectRule e (a :: as) = selectRule e as :=
        List.find?_cons_of_neg as hneg
      rw [key, ih]
      constructor
      · rintro ⟨pre, post, rfl, hr, hpre⟩
        refine ⟨a :: pre, post, rfl, hr, ?_⟩
        intro r' hr'
        rcases List.mem_cons.mp hr' with rfl | hmem
        · exact h
        · exact hpre r' hmem
      · rintro ⟨pre, post, heq, hr, hpre⟩
        cases pre with
        | nil =>
          simp only [List.nil_append] at heq
          obtain ⟨rfl, rfl⟩ := List.cons.inj heq
          rw [h] at hr
          exact absurd hr (by simp)
        | cons b bs =>
          simp only [List.cons_append] at heq
          obtain ⟨rfl, rfl⟩ := List.cons.inj heq
          exact ⟨bs, post, rfl, hr, fun r' hr' => hpre r' (List.mem_cons_of_mem _ hr')⟩

/-- C4: in every variants map produced by `classify`, at most one variant
contributes (exactly one whenever a rule matched), and every variant that
loses precedence (`contributes = false`) carries a non-null explanatory
hint. -/
theorem classify_single_contributor (mr : Option Rule) (fp : List String)
    (e : Event) :
    ((classify mr fp e).countP fun nv => variantContributes nv.2) ≤ 1 ∧
    (∀ r, mr = some r →
      ((classify mr fp e).countP fun nv => variantContributes nv.2) = 1) ∧
    (∀ nv ∈ classify mr fp e, variantContributes nv.2 = false →
      variantHint nv.2 ≠ none) := by
  cases mr with
  | none => simp [classify]
  | some r =>
    by_cases hs : isSaltedTemplate r.fingerprint = true <;>
      simp [classify, hs, variantContributes, variantHint,
        List.countP_cons, List.countP_nil]

/-- C5: for every event on which no configured rule fully matches, the engine
selects no rule, `evaluate` succeeds without raising any error, and the
resulting variants map contains no custom-fingerprint and no salted-component
variant. -/
theorem no_rule_match_safe (d : String) (e : Event) (cfg : FingerprintConfig)
    (h : ∀ r ∈ cfg.rules, ruleMatches e r = false) :
    selectRule e cfg.rules = none ∧
    ∃ res, evaluate d cfg e = Except.ok res ∧ res.matchedRule = none ∧
      ∀ nv ∈ res.variants,
        isCustomVariant nv.2 = false ∧ isSaltedVariant nv.2 = false := by
  have hnone : selectRule e cfg.rules = none :=
    List.find?_eq_none.mpr fun x hx => by simp [h x hx]
  refine ⟨hnone, ⟨⟨none, none, classify none [] e⟩, ?_, rfl, ?_⟩⟩
  · simp [evaluate, hnone]
  · simp [classify]

/-- Witness for C5: the empty event matches no rule of the first fixture's
configuration. -/
theorem no_rule_match_safe_witness :
    selectRule emptyEvent fixtureConfig1.rules = none ∧
    ∃ res, evaluate "dflt" fixtureConfig1 emptyEvent = Except.ok res ∧
      res.matchedRule = none ∧
      ∀ nv ∈ res.variants,
        isCustomVariant nv.2 = false ∧ isSaltedVariant nv.2 = false :=
  no_rule_match_safe "dflt" emptyEvent fixtureConfig1 (by decide)

/-- C6: the matcher is a total function that fails closed: whenever the field
selected by the matcher key is absent on the event, `eventMatches` evaluates
to false (and, being total, raises no exception). -/
theorem matcher_fails_closed (e : Event) (key pattern : String)
    (h : matcherField e key = none) :
    eventMatches e key pattern = false := by
  simp [eventMatches, h]

/-- Witness for C6: the first fixture's event has no `module` field, so a
module matcher evaluates to false on it. -/
theorem matcher_fails_closed_witness :
    eventMatches fixtureEvent1 "module" "*wrong*" = false :=
  matcher_fails_closed fixtureEvent1 "module" "*wrong*" (by decide)

/-- C7: rendering is the identity on literal-only templates: when every token
of the template is a literal string, `render` succeeds with exactly the
template's token sequence. -/
theorem render_literal_identity (d : String) (e : Event) (tpl : List FPToken)
    (h : ∀ t ∈ tpl, ∃ s, t = FPToken.lit s) :
    render d e tpl = Except.ok (tpl.map tokenText) := by
  induction tpl with
  | nil => rfl
  | cons t ts ih =>
    obtain ⟨s, rfl⟩ := h t (List.mem_cons_self t ts)
    have hts := ih fun t' ht' => h t' (List.mem_cons_of_mem _ ht')
    simp [render, renderToken, hts, tokenText]

/-- Witness for C7: a concrete two-literal template renders to itself. -/
theorem render_literal_identity_witness :
    render "dflt" emptyEvent [FPToken.lit "alpha", FPToken.lit "beta"] =
      Except.ok ([FPToken.lit "alpha", FPToken.lit "beta"].map tokenText) :=
  render_literal_identity "dflt" emptyEvent
    [FPToken.lit "alpha", FPToken.lit "beta"] (by
      intro t ht
      rcases List.mem_cons.mp ht with rfl | ht'
      · exact ⟨"alpha", rfl⟩
      · rcases List.mem_cons.mp ht' with rfl | ht''
        · exact ⟨"beta", rfl⟩
        · exact absurd ht'' (List.not_mem_nil t))

/-- C8: the pipeline is deterministic: `selectRule`, `render` and the full
`evaluate` are pure functions of their inputs, so repeated invocations on the
same (config, event) pair yield identical results and identical failures. -/
theorem pipeline_deterministic (e e' : Event) (rs rs' : List Rule)
    (d d' : String) (tpl tpl' : List FPToken) (cfg cfg' : FingerprintConfig)
    (he : e = e') (hrs : rs = rs') (hd : d = d') (ht : tpl = tpl')
    (hc : cfg = cfg') :
    selectRule e rs = selectRule e' rs' ∧
    render d e tpl = render d' e' tpl' ∧
    evaluate d cfg e = evaluate d' cfg' e' := by
  subst he
  subst hrs
  subst hd
  subst ht
  subst hc
  exact ⟨rfl, rfl, rfl⟩

/-- Witness for C8: determinism at the first fixture's inputs. -/
theorem pipeline_deterministic_witness :
    selectRule fixtureEvent1 fixtureConfig1.rules =
      selectRule fixtureEvent1 fixtureConfig1.rules ∧
    render "dflt" fixtureEvent1 fixtureRule1.fingerprint =
      render "dflt" fixtureEvent1 fixtureRule1.fingerprint ∧
    evaluate "dflt" fixtureConfig1 fixtureEvent1 =
      evaluate "dflt" fixtureConfig1 fixtureEvent1 :=
  pipeline_deterministic fixtureEvent1 fixtureEvent1 fixtureConfig1.rules
    fixtureConfig1.rules "dflt" "dflt" fixtureRule1.fingerprint
    fixtureRule1.fingerprint fixtureConfig1 fixtureConfig1 rfl rfl rfl rfl rfl

/-- C9: the matched_rule string carried by an emitted custom-fingerprint
variant equals, character for character, the text field of the matched rule
as stored in the configuration. -/
theorem custom_variant_matched_rule (r : Rule) (fp : List String) (e : Event)
    (n mr : String) (vals : List String)
    (h : (n, Variant.customFingerprint mr vals) ∈ classify (some r) fp e) :
    mr = r.text := by
  by_cases hs : isSaltedTemplate r.fingerprint = true <;>
    simp [classify, hs] at h
  exact h.2.1

/-- Witness for C9: the custom-fingerprint variant of the first fixture
carries exactly the configured rule text. -/
theorem custom_variant_matched_rule_witness :
    "value:\"*went wrong*\" -> \"something-went-wrong\x7b\x7b error.value \x7d\x7d\"" =
      fixtureRule1.text :=
  custom_variant_matched_rule fixtureRule1
    ["something-went-wrong", "something went WRONG"] fixtureEvent1
    "custom-fingerprint"
    "value:\"*went wrong*\" -> \"something-went-wrong\x7b\x7b error.value \x7d\x7d\""
    ["something-went-wrong", "something went WRONG"] (by decide)

/-- Helper: a salted template's authored text contains the unexpanded default
marker. -/
theorem default_text_mem_of_salted (tpl : List FPToken)
    (h : isSaltedTemplate tpl = true) :
    "\x7b\x7b default \x7d\x7d" ∈ tpl.map tokenText := by
  rcases List.any_eq_true.mp h with ⟨t, ht, hp⟩
  cases t with
  | lit s => simp at hp
  | fieldRef f => simp at hp
  | defaultTok => exact List.mem_map.mpr ⟨FPToken.defaultTok, ht, rfl⟩

/-- C10: every emitted salted-component variant has `values` equal to
`client_values` with the default marker appearing unexpanded in them, and any
two salted-component variants emitted for the same evaluation carry identical
`client_values` and `values`. -/
theorem salted_values_eq_client (r : Rule) (fp : List String) (e : Event)
    (n : String) (c : Bool) (hnt : Option String) (cv v : List String)
    (h : (n, Variant.saltedComponent c hnt cv v) ∈ classify (some r) fp e) :
    v = cv ∧ "\x7b\x7b default \x7d\x7d" ∈ v ∧
      ∀ n' c' hnt' cv' v',
        (n', Variant.saltedComponent c' hnt' cv' v') ∈ classify (some r) fp e →
          cv' = cv ∧ v' = v := by
  by_cases hs : isSaltedTemplate r.fingerprint = true <;>
    simp [classify, hs] at h
  rcases h with ⟨-, -, -, hcv, hv⟩ | ⟨-, -, -, hcv, hv⟩ <;>
    subst hcv <;> subst hv <;>
    refine ⟨rfl, default_text_mem_of_salted _ hs, ?_⟩ <;>
    · intro n' c' hnt' cv' v' h'
      simp [classify, hs] at h'
      rcases h' with ⟨-, -, -, hcv', hv'⟩ | ⟨-, -, -, hcv', hv'⟩ <;>
        exact ⟨hcv', hv'⟩

/-- Witness for C10: the system salted variant of the second scenario. -/
theorem salted_values_eq_client_witness :
    ["my-route", "\x7b\x7b default \x7d\x7d"] =
        ["my-route", "\x7b\x7b default \x7d\x7d"] ∧
      "\x7b\x7b default \x7d\x7d" ∈ ["my-route", "\x7b\x7b default \x7d\x7d"] ∧
      ∀ n' c' hnt' cv' v',
        (n', Variant.saltedComponent c' hnt' cv' v') ∈
            classify (some fixtureRule2)
              ["my-route", "dflt"] fixtureEvent2 →
          cv' = ["my-route", "\x7b\x7b default \x7d\x7d"] ∧
          v' = ["my-route", "\x7b\x7b default \x7d\x7d"] :=
  salted_values_eq_client fixtureRule2 ["my-route", "dflt"] fixtureEvent2
    "system" true none ["my-route", "\x7b\x7b default \x7d\x7d"]
    ["my-route", "\x7b\x7b default \x7d\x7d"] (by decide)

/-- Witness for C1: the first scenario's pipeline equation at a concrete
default component. -/
theorem scenario1_pipeline_witness :
    evaluate "dflt" fixtureConfig1 fixtureEvent1 =
      Except.ok
        { matchedRule := some fixtureRule1,
          fingerprint := some ["something-went-wrong", "something went WRONG"],
          variants :=
            [("app", Variant.component false (some hintCustomPrecedence)),
             ("custom-fingerprint",
              Variant.customFingerprint fixtureRule1.text
                ["something-went-wrong", "something went WRONG"]),
             ("system", Variant.component false (some hintCustomPrecedence))] } :=
  scenario1_pipeline "dflt"

/-- Witness for C2: the second scenario's pipeline equation at a concrete
default component. -/
theorem scenario2_pipeline_witness :
    evaluate "dflt" fixtureConfig2 fixtureEvent2 =
      Except.ok
        { matchedRule := some fixtureRule2,
          fingerprint := some ["my-route", "dflt"],
          variants :=
            [("app",
              Variant.saltedComponent false (some hintSystemPrecedence)
                ["my-route", "\x7b\x7b default \x7d\x7d"]
                ["my-route", "\x7b\x7b default \x7d\x7d"]),
             ("system",
              Variant.saltedComponent true none
                ["my-route", "\x7b\x7b default \x7d\x7d"]
                ["my-route", "\x7b\x7b default \x7d\x7d"])] } :=
  scenario2_pipeline "dflt"

/-- Witness for C3: the characterization of `selectRule` instantiated at the
first fixture's event, rules and rule. -/
theorem selectRule_first_match_witness :
    selectRule fixtureEvent1 fixtureConfig1.rules = some fixtureRule1 ↔
      ∃ pre post, fixtureConfig1.rules = pre ++ fixtureRule1 :: post ∧
        ruleMatches fixtureEvent1 fixtureRule1 = true ∧
        ∀ r' ∈ pre, ruleMatches fixtureEvent1 r' = false :=
  selectRule_first_match fixtureEvent1 fixtureConfig1.rules fixtureRule1

/-- Witness for C4: the classifier invariant instantiated at the first
fixture's matched rule. -/
theorem classify_single_contributor_witness :
    ((classify (some fixtureRule1) ["something-went-wrong"]
        fixtureEvent1).countP fun nv => variantContributes nv.2) ≤ 1 ∧
    (∀ r, some fixtureRule1 = some r →
      ((classify (some fixtureRule1) ["something-went-wrong"]
          fixtureEvent1).countP fun nv => variantContributes nv.2) = 1) ∧
    (∀ nv ∈ classify (some fixtureRule1) ["something-went-wrong"] fixtureEvent1,
      variantContributes nv.2 = false → variantHint nv.2 ≠ none) :=
  classify_single_contributor (some fixtureRule1) ["something-went-wrong"]
    fixtureEvent1
